import Mathlib

/-!
Verification of the serial control plane of `src/gensio/sergensio_termios.c`
(ser2net's termios-backed sergensio adapter).

The C code is shallowly embedded: each Lean definition models one C function
(or the projection of `struct sterm_data` that the function touches), with
machine integers as `Nat` and OS calls made explicit parameters.  OS ioctl /
tc* calls whose failure paths are irrelevant to a statement are modelled as
succeeding; each such spot is marked by a comment.
-/

namespace Ser2net

/-! ### Platform constants

Modem-control bits from the Linux `<asm/termbits.h>` family of headers and
errno values from `<errno.h>`; these are platform constants, not repository
code. -/

def TIOCM_DTR : Nat := 0x002
def TIOCM_RTS : Nat := 0x004
def TIOCM_CTS : Nat := 0x020
def TIOCM_CD  : Nat := 0x040
def TIOCM_RI  : Nat := 0x080
def TIOCM_DSR : Nat := 0x100

def EAGAIN : Nat := 11
def ENOMEM : Nat := 12
def EBUSY  : Nat := 16
def EINVAL : Nat := 22
def ENOTSUP : Nat := 95

/-- Modelled from the spec: the `SERGENSIO_*` enum values come from the
`gensio/sergensio.h` header, which is not under `src/`.  The spec fixes only
that a "set" is any nonzero submitted value (§4.3 "If `value ≠ 0` (a set)")
and that ON and OFF are distinct named values; the gensio headers use 1 for
ON and 2 for OFF for each of BREAK, DTR and RTS. -/
def SERGENSIO_BREAK_ON : Nat := 1

/-- Modelled from the spec: see `SERGENSIO_BREAK_ON`. -/
def SERGENSIO_BREAK_OFF : Nat := 2

/-- Modelled from the spec: see `SERGENSIO_BREAK_ON`. -/
def SERGENSIO_DTR_ON : Nat := 1

/-- Modelled from the spec: see `SERGENSIO_BREAK_ON`. -/
def SERGENSIO_DTR_OFF : Nat := 2

/-- Modelled from the spec: see `SERGENSIO_BREAK_ON`. -/
def SERGENSIO_RTS_ON : Nat := 1

/-- Modelled from the spec: see `SERGENSIO_BREAK_ON`. -/
def SERGENSIO_RTS_OFF : Nat := 2

/-! ### Modem-control accessors (`termios_get_set_dtr`, `termios_get_set_rts`)

The C accessor signature is `int (*)(struct termios *termio, int *mctl,
int *val)`.  The DTR/RTS accessors never touch the `termio` argument, so the
embedding takes the modem-control word and the in/out value and returns
either an errno or the updated `(mctl, val)` pair. -/

/-- `termios_get_set_dtr` (sergensio_termios.c:499-517).  Note the OFF branch
is a verbatim translation of the source's `*mctl &= TIOCM_DTR`. -/
def termios_get_set_dtr (mctl : Nat) (ival : Nat) : Except Nat (Nat × Nat) :=
  if ival ≠ 0 then
    if ival = SERGENSIO_DTR_ON then
      .ok (mctl ||| TIOCM_DTR, ival)
    else if ival = SERGENSIO_DTR_OFF then
      .ok (mctl &&& TIOCM_DTR, ival)
    else
      .error EINVAL
  else
    if mctl &&& TIOCM_DTR ≠ 0 then
      .ok (mctl, SERGENSIO_DTR_ON)
    else
      .ok (mctl, SERGENSIO_DTR_OFF)

/-- `termios_get_set_rts` (sergensio_termios.c:529-547).  The OFF branch is a
verbatim translation of the source's `*mctl &= TIOCM_RTS`. -/
def termios_get_set_rts (mctl : Nat) (ival : Nat) : Except Nat (Nat × Nat) :=
  if ival ≠ 0 then
    if ival = SERGENSIO_RTS_ON then
      .ok (mctl ||| TIOCM_RTS, ival)
    else if ival = SERGENSIO_RTS_OFF then
      .ok (mctl &&& TIOCM_RTS, ival)
    else
      .error EINVAL
  else
    if mctl &&& TIOCM_RTS ≠ 0 then
      .ok (mctl, SERGENSIO_RTS_ON)
    else
      .ok (mctl, SERGENSIO_RTS_OFF)

/-! ### Modem-state poller (`termios_timeout`, `sterm_modemstate`) -/

/-- The poller-related projection of `struct sterm_data`. -/
structure PollState where
  last_modemstate : Nat
  modemstate_mask : Nat
  sent_first_modemstate : Bool
  handling_modemstate : Bool
deriving DecidableEq, Repr

/-- Observable outcome of one run of `termios_timeout`.  `dispatched` is the
payload handed to `gensio_cb` with `GENSIO_EVENT_SER_MODEMSTATE` (or `none`
when no event was raised); `forced` records whether the dispatch happened
with `force_send` true; `rescheduled` records whether the tick itself called
`start_timer` (sergensio_termios.c:608-612). -/
structure TickResult where
  state : PollState
  dispatched : Option Nat
  forced : Bool
  rescheduled : Bool
deriving DecidableEq, Repr

/-- Composition of the 8-bit modem-state word from the `TIOCMGET` value
(sergensio_termios.c:578-585): bit 7 = CD, bit 6 = RI, bit 5 = DSR,
bit 4 = CTS. -/
def modemstate_of_tiocm (v : Nat) : Nat :=
  (if v &&& TIOCM_CD ≠ 0 then 0x80 else 0) |||
  (if v &&& TIOCM_RI ≠ 0 then 0x40 else 0) |||
  (if v &&& TIOCM_DSR ≠ 0 then 0x20 else 0) |||
  (if v &&& TIOCM_CTS ≠ 0 then 0x10 else 0)

/-- `termios_timeout` (sergensio_termios.c:559-617), one timer tick.
`sample` is the result of `ioctl(fd, TIOCMGET, &val)`: `none` models the
ioctl failing (the source then returns with `handling_modemstate` still
true), `some v` models success with value `v`. -/
def termios_timeout (s : PollState) (sample : Option Nat) : TickResult :=
  if s.handling_modemstate then
    { state := s, dispatched := none, forced := false, rescheduled := false }
  else
    match sample with
    | none =>
      { state := { s with handling_modemstate := true },
        dispatched := none, forced := false, rescheduled := false }
    | some v =>
      let cur := modemstate_of_tiocm v
      -- modemstate |= (modemstate ^ sdata->last_modemstate) >> 4;
      let ms := cur ||| ((cur ^^^ s.last_modemstate) >>> 4)
      -- sdata->last_modemstate = modemstate & sdata->modemstate_mask;
      let newLast := ms &&& s.modemstate_mask
      -- modemstate &= sdata->last_modemstate;
      let payload := ms &&& newLast
      let force := !s.sent_first_modemstate
      { state := { last_modemstate := newLast,
                   modemstate_mask := s.modemstate_mask,
                   sent_first_modemstate := true,
                   handling_modemstate := false },
        dispatched := if force || (payload &&& 0xf != 0) then some payload else none,
        forced := force,
        rescheduled := s.modemstate_mask != 0 }

/-- `sterm_modemstate` (sergensio_termios.c:619-635): record the mask.  The
accompanying `start_timer`/`stop_timer` calls act on the OS timer, which is
outside this state projection; tick-driven reschedules are tracked in
`TickResult.rescheduled`. -/
def sterm_modemstate (s : PollState) (mask : Nat) : PollState :=
  { s with modemstate_mask := mask }

/-- One externally visible poller event: a timer tick whose `TIOCMGET`
succeeds with the given value, a tick whose `TIOCMGET` fails, or a
`sterm_modemstate` call with the given mask. -/
inductive SOp where
  | tick : Nat → SOp
  | tickFail : SOp
  | sub : Nat → SOp
deriving DecidableEq, Repr

/-- Effect of one `SOp` on the poller state: the new state, the dispatched
`SER_MODEMSTATE` payloads tagged with whether the dispatch was forced, and
how many times the op rescheduled the timer from inside `termios_timeout`. -/
def stepOp (s : PollState) : SOp → PollState × List (Nat × Bool) × Nat
  | .tick v =>
    let t := termios_timeout s (some v)
    (t.state,
     (match t.dispatched with | some p => [(p, t.forced)] | none => []),
     if t.rescheduled then 1 else 0)
  | .tickFail =>
    let t := termios_timeout s none
    (t.state,
     (match t.dispatched with | some p => [(p, t.forced)] | none => []),
     if t.rescheduled then 1 else 0)
  | .sub m => (sterm_modemstate s m, [], 0)

/-- Accumulated observations of a run of poller events. -/
structure RunOut where
  state : PollState
  dispatches : List (Nat × Bool)
  reschedCount : Nat
deriving DecidableEq, Repr

/-- Run a sequence of poller events from a state, accumulating the dispatched
events in order. -/
def runOps (s : PollState) : List SOp → RunOut
  | [] => { state := s, dispatches := [], reschedCount := 0 }
  | op :: rest =>
    let st := stepOp s op
    let r := runOps st.1 rest
    { state := r.state,
      dispatches := st.2.1 ++ r.dispatches,
      reschedCount := st.2.2 + r.reschedCount }

/-- Number of dispatched events that were forced (sent with `force_send`). -/
def forcedCount (r : RunOut) : Nat :=
  (r.dispatches.filter (fun d => d.2)).length

/-- Whether an event list contains a successful timer tick. -/
def hasTick : List SOp → Bool
  | [] => false
  | .tick _ :: _ => true
  | _ :: rest => hasTick rest

/-- Whether an event list is free of failing ticks. -/
def noFail : List SOp → Bool
  | [] => true
  | .tickFail :: _ => false
  | _ :: rest => noFail rest

/-! ### Drain-on-close (`sterm_check_close_drain`) -/

/-- The close-path projection of `struct sterm_data`, as read by
`sterm_check_close_drain`: whether `termio_q` is empty (the queue contents
are irrelevant here), the `timer_stopped` flag, and the bounded retry
counter. -/
structure DrainState where
  open_flag : Bool
  termio_q_empty : Bool
  timer_stopped : Bool
  close_timeouts_left : Nat
deriving DecidableEq, Repr

/-- Observable outcome of one `sterm_check_close_drain` poll in state
`GENSIO_LL_CLOSE_STATE_DONE`: the returned error (0 = close complete,
else `EAGAIN`), the updated state, whether `uucp_rm_lock` ran, and the
`next_timeout` in microseconds when `EAGAIN` was returned. -/
structure DrainOut where
  err : Nat
  state : DrainState
  uucp_removed : Bool
  next_timeout_usec : Option Nat
deriving DecidableEq, Repr

/-- `sterm_check_close_drain` with `state = GENSIO_LL_CLOSE_STATE_START`
(sergensio_termios.c:756-764): clear `open`, set `close_timeouts_left` to
200 and request the timer stop; if `stop_timer_with_done` fails
(`stop_timer_failed`), `timer_stopped` is set immediately, otherwise the
stop-done callback `sterm_timer_stopped` will set it later. -/
def sterm_close_start (s : DrainState) (stop_timer_failed : Bool) : DrainState :=
  { s with open_flag := false,
           close_timeouts_left := 200,
           timer_stopped := if stop_timer_failed then true else s.timer_stopped }

/-- `sterm_check_close_drain` with `state = GENSIO_LL_CLOSE_STATE_DONE`
(sergensio_termios.c:766-793).  `outq` is the `ioctl(fd, TIOCOUTQ, &count)`
result: `none` models the ioctl failing (`rv ≠ 0`, which the source treats
as drained), `some count` models success.  `close_timeouts_left` is a C
`unsigned int`, hence the 32-bit wrapping decrement. -/
def sterm_check_close_drain (s : DrainState) (outq : Option Nat) : DrainOut :=
  let s := { s with open_flag := false }
  if s.termio_q_empty = false then
    { err := EAGAIN, state := s, uucp_removed := false,
      next_timeout_usec := some 10000 }
  else if s.timer_stopped = false then
    { err := EAGAIN, state := s, uucp_removed := false,
      next_timeout_usec := some 10000 }
  else
    match outq with
    | none =>
      { err := 0, state := s, uucp_removed := true, next_timeout_usec := none }
    | some count =>
      if count = 0 then
        { err := 0, state := s, uucp_removed := true, next_timeout_usec := none }
      else
        let s := { s with
          close_timeouts_left := (s.close_timeouts_left + (2 ^ 32 - 1)) % 2 ^ 32 }
        if s.close_timeouts_left = 0 then
          { err := 0, state := s, uucp_removed := true, next_timeout_usec := none }
        else
          { err := EAGAIN, state := s, uucp_removed := false,
            next_timeout_usec := some 10000 }

/-! ### Operation queue (`termios_set_get`, `termios_process`) -/

/-- `enum termio_op` (sergensio_termios.c:36-40). -/
inductive TermioOp where
  | termio
  | mctl
  | brk
deriving DecidableEq, Repr

/-- A value of the C accessor type `int (*getset)(struct termios *termio,
int *mctl, int *val)`.  The source multiplexes three shapes into one pointer
type: termios accessors only touch `termio` (modelled as its flag word),
modem-control accessors only touch `mctl`, and `sterm_sbreak` passes NULL.
Each function maps the touched word and the in/out `val` to an errno or the
updated pair. -/
inductive Accessor where
  | termioFn : (Nat → Nat → Except Nat (Nat × Nat)) → Accessor
  | mctlFn : (Nat → Nat → Except Nat (Nat × Nat)) → Accessor
  | null

/-- `struct termio_op_q` (sergensio_termios.c:42-48), minus the callback
context, which carries no semantics here. -/
structure QE where
  op : TermioOp
  getset : Accessor

/-- The queue/lifecycle projection of `struct sterm_data` used by
`termios_set_get` and `termios_process`. -/
structure EpState where
  write_only : Bool
  open_flag : Bool
  break_set : Bool
  termio_q : List QE

/-- The OS tty state behind the endpoint's fd: the modem-control bits read
and written through `TIOCMGET`/`TIOCMSET`, whether a BREAK condition is
asserted on the line (`TIOCSBRK`/`TIOCCBRK`), and the termios flag word
(`tcgetattr`/`tcsetattr`). -/
structure SysState where
  mctl : Nat
  breakOn : Bool
  termio : Nat
deriving DecidableEq, Repr

/-- Observable outcome of one `termios_set_get` call.  `ret = some e` is the
C return value `e` (0 for success); `ret = none` marks the call reaching a
NULL-pointer dereference, i.e. C undefined behavior.  `allocs`/`frees` count
queue-entry `zalloc`/`free` calls made during this call, and `enqueued`
whether an entry was left on `termio_q`. -/
structure SGOut where
  ret : Option Nat
  ep : EpState
  sys : SysState
  allocs : Nat
  frees : Nat
  enqueued : Bool

/-- `termios_set_get` (sergensio_termios.c:158-256).  `hasDone` models
whether the `done` completion argument is non-NULL; `zalloc` and the
`tcgetattr`/`tcsetattr`/`ioctl` OS calls are modelled as succeeding.  Note
two source details carried over verbatim: the queue entry is allocated
before the `open` check, and the MODEM_CTL set path calls the accessor
through `qe->getset` (line 206) — not through the `getset` argument — which
dereferences NULL when `done` was NULL. -/
def termios_set_get (ep : EpState) (sys : SysState) (val : Nat) (op : TermioOp)
    (getset : Accessor) (hasDone : Bool) : SGOut :=
  if ep.write_only then
    { ret := some ENOTSUP, ep := ep, sys := sys,
      allocs := 0, frees := 0, enqueued := false }
  else
    let qe : Option QE := if hasDone then some { op := op, getset := getset } else none
    let allocs : Nat := if hasDone then 1 else 0
    if ep.open_flag = false then
      -- out_unlock with err = EBUSY: `if (err && qe) free(qe)`
      { ret := some EBUSY, ep := ep, sys := sys,
        allocs := allocs, frees := allocs, enqueued := false }
    else
      -- synchronous set phase, taken when val ≠ 0;
      -- none = NULL dereference, some (err, ep, sys) otherwise
      let setRes : Option (Nat × EpState × SysState) :=
        if val ≠ 0 then
          match op with
          | .termio =>
            -- tcgetattr modelled as succeeding; set calls the getset argument
            match getset with
            | .termioFn f =>
              match f sys.termio val with
              | .error e => some (e, ep, sys)
              | .ok (t, _) =>
                -- tcsetattr(fd, TCSANOW, &termio), return value ignored
                some (0, ep, { sys with termio := t })
            | _ => none
          | .mctl =>
            -- ioctl(TIOCMGET) modelled as succeeding;
            -- the source calls qe->getset here, NULL when done was NULL
            match qe with
            | none => none
            | some q =>
              match q.getset with
              | .mctlFn f =>
                match f sys.mctl val with
                | .error e => some (e, ep, sys)
                | .ok (m, _) =>
                  -- ioctl(TIOCMSET) modelled as succeeding
                  some (0, ep, { sys with mctl := m })
              | _ => none
          | .brk =>
            if val = SERGENSIO_BREAK_ON then
              -- ioctl(fd, TIOCSBRK) modelled as succeeding
              some (0, { ep with break_set := true }, { sys with breakOn := true })
            else if val = SERGENSIO_BREAK_OFF then
              -- ioctl(fd, TIOCCBRK) modelled as succeeding
              some (0, { ep with break_set := false }, { sys with breakOn := false })
            else
              some (EINVAL, ep, sys)
        else
          some (0, ep, sys)
      match setRes with
      | none =>
        { ret := none, ep := ep, sys := sys,
          allocs := allocs, frees := 0, enqueued := false }
      | some (e, ep1, sys1) =>
        if e ≠ 0 then
          { ret := some e, ep := ep1, sys := sys1,
            allocs := allocs, frees := allocs, enqueued := false }
        else
          match qe with
          | some q =>
            -- append FIFO (head start + tail walk in the source)
            { ret := some 0,
              ep := { ep1 with termio_q := ep1.termio_q ++ [q] },
              sys := sys1, allocs := allocs, frees := 0, enqueued := true }
          | none =>
            { ret := some 0, ep := ep1, sys := sys1,
              allocs := allocs, frees := 0, enqueued := false }

/-- Processing of one queue entry by `termios_process`
(sergensio_termios.c:124-155): the `(err, val)` pair handed to the entry's
completion.  `tcgetattr` and `ioctl(TIOCMGET)` are modelled as succeeding;
the read-back calls the accessor with `val = 0`.  `none` marks an
op/accessor shape mismatch, which the adapter entry points never build. -/
def termios_process_entry (ep : EpState) (sys : SysState) (q : QE) :
    Option (Nat × Nat) :=
  match q.op, q.getset with
  | .termio, .termioFn f =>
    some (match f sys.termio 0 with | .error e => (e, 0) | .ok (_, v) => (0, v))
  | .mctl, .mctlFn f =>
    some (match f sys.mctl 0 with | .error e => (e, 0) | .ok (_, v) => (0, v))
  | .brk, _ =>
    some (0, if ep.break_set then SERGENSIO_BREAK_ON else SERGENSIO_BREAK_OFF)
  | _, _ => none

/-- `termios_process` (sergensio_termios.c:122-156): drain the queue FIFO,
delivering one completion per entry (no completion re-enters the endpoint in
this model, so the state is read once). -/
def termios_process (ep : EpState) (sys : SysState) :
    EpState × List (Option (Nat × Nat)) :=
  ({ ep with termio_q := [] },
   ep.termio_q.map (termios_process_entry ep sys))

/-- The successful path of `sterm_sub_open` (sergensio_termios.c:806-857)
restricted to the fields modelled here: `uucp_mk_lock`, `open(2)` and the
`tcsetattr` of `default_termios` succeed; the source then issues
`ioctl(fd, TIOCCBRK)` — clearing the BREAK condition on the line — and sets
`open = true`.  Note that `break_set` is not reset. -/
def sterm_sub_open (ep : EpState) (sys : SysState) : EpState × SysState :=
  ({ ep with open_flag := true },
   { sys with breakOn := false })

/-! ### Helper lemmas -/

theorem land_land_self (x y : Nat) : x &&& (x &&& y) = x &&& y := by
  rw [← Nat.land_assoc, Nat.and_self]

theorem land_sixteen_land_fifteen (x y : Nat) : (x &&& (y &&& 16)) &&& 15 = 0 := by
  rw [Nat.land_assoc, Nat.land_assoc]
  have h : (16 : Nat) &&& 15 = 0 := by decide
  rw [h, Nat.and_zero, Nat.and_zero]

theorem land_sixteen_fifteen (x : Nat) : (x &&& 16) &&& 15 = 0 := by
  rw [Nat.land_assoc]
  have h : (16 : Nat) &&& 15 = 0 := by decide
  rw [h, Nat.and_zero]

/-! ### Claim theorems -/

/-- C1: the claim states that a DTR set with value OFF clears exactly the
`TIOCM_DTR` bit of `mctl` and leaves every other bit unchanged (likewise RTS
with `TIOCM_RTS`).  The source instead computes `*mctl &= TIOCM_DTR`
(resp. `*mctl &= TIOCM_RTS`): evaluated at `mctl = TIOCM_DTR ||| TIOCM_RTS`,
the DTR OFF set leaves `TIOCM_DTR` set and clears `TIOCM_RTS`, the exact
opposite of the claimed effect, confirming the spec's §9 note that the
intended form is `*mctl &= ~FLAG`. -/
theorem dtr_rts_off_keeps_bit_clobbers_rest :
    termios_get_set_dtr (TIOCM_DTR ||| TIOCM_RTS) SERGENSIO_DTR_OFF
      = .ok (TIOCM_DTR, SERGENSIO_DTR_OFF)
    ∧ termios_get_set_rts (TIOCM_DTR ||| TIOCM_RTS) SERGENSIO_RTS_OFF
      = .ok (TIOCM_RTS, SERGENSIO_RTS_OFF)
    ∧ TIOCM_DTR &&& TIOCM_DTR ≠ 0
    ∧ (TIOCM_DTR ||| TIOCM_RTS) &&& TIOCM_RTS ≠ TIOCM_DTR &&& TIOCM_RTS := by
  refine ⟨rfl, rfl, by decide, by decide⟩

/-- C3 counterexample: with `modemstate_mask = 0x10` and the first forced
report already sent (`sent_first_modemstate = true`, stored masked state 0,
i.e. CTS sampled low), a tick that samples CTS high — a CTS edge — dispatches
no event at all, refuting "exactly one SER_MODEMSTATE event is dispatched
per CTS edge": the mask is applied to the edge bits as well, and `0x10` has
an empty bottom nibble. -/
theorem mask_0x10_cts_edge_no_event :
    (runOps { last_modemstate := 0, modemstate_mask := 0x10,
              sent_first_modemstate := true, handling_modemstate := false }
            [SOp.tick TIOCM_CTS]).dispatches = [] := by
  decide

/-- C5 counterexample: the claim says `submit(BREAK, v)` returns
invalid-argument for any `v` other than ON and OFF, but `v = 0` is neither
ON (1) nor OFF (2) and the call succeeds (it is a queued get), leaving
`break_set` untouched. -/
theorem sbreak_zero_succeeds_not_einval :
    (termios_set_get ⟨false, true, false, []⟩ ⟨0, false, 0⟩ 0 .brk .null true).ret
      = some 0
    ∧ (termios_set_get ⟨false, true, false, []⟩ ⟨0, false, 0⟩ 0 .brk .null true).enqueued
      = true
    ∧ (0 : Nat) ≠ SERGENSIO_BREAK_ON ∧ (0 : Nat) ≠ SERGENSIO_BREAK_OFF
    ∧ (0 : Nat) ≠ EINVAL := by
  refine ⟨rfl, rfl, by decide, by decide, by decide⟩

/-- C6: the claim says every successful open clears BREAK, so that a queued
BREAK get right after a re-open completes with OFF even when the previous
session closed with BREAK latched ON.  Evaluating the code on that very
scenario — open, `submit(BREAK, ON)` (succeeds, `break_set := true`), close
(`open := false`), `sterm_sub_open` again — shows the re-open does clear the
physical line (`ioctl(fd, TIOCCBRK)`, so `breakOn = false`) but never resets
`break_set`, and the queued BREAK get completes with ON, not OFF. -/
theorem reopen_break_get_reports_on :
    (sterm_sub_open
        { (termios_set_get ⟨false, true, false, []⟩ ⟨0, false, 0⟩
            SERGENSIO_BREAK_ON .brk .null false).ep with open_flag := false }
        (termios_set_get ⟨false, true, false, []⟩ ⟨0, false, 0⟩
            SERGENSIO_BREAK_ON .brk .null false).sys).2.breakOn = false
    ∧ (termios_process
        (termios_set_get
          (sterm_sub_open
            { (termios_set_get ⟨false, true, false, []⟩ ⟨0, false, 0⟩
                SERGENSIO_BREAK_ON .brk .null false).ep with open_flag := false }
            (termios_set_get ⟨false, true, false, []⟩ ⟨0, false, 0⟩
                SERGENSIO_BREAK_ON .brk .null false).sys).1
          (sterm_sub_open
            { (termios_set_get ⟨false, true, false, []⟩ ⟨0, false, 0⟩
                SERGENSIO_BREAK_ON .brk .null false).ep with open_flag := false }
            (termios_set_get ⟨false, true, false, []⟩ ⟨0, false, 0⟩
                SERGENSIO_BREAK_ON .brk .null false).sys).2
          0 .brk .null true).ep
        (termios_set_get
          (sterm_sub_open
            { (termios_set_get ⟨false, true, false, []⟩ ⟨0, false, 0⟩
                SERGENSIO_BREAK_ON .brk .null false).ep with open_flag := false }
            (termios_set_get ⟨false, true, false, []⟩ ⟨0, false, 0⟩
                SERGENSIO_BREAK_ON .brk .null false).sys).1
          (sterm_sub_open
            { (termios_set_get ⟨false, true, false, []⟩ ⟨0, false, 0⟩
                SERGENSIO_BREAK_ON .brk .null false).ep with open_flag := false }
            (termios_set_get ⟨false, true, false, []⟩ ⟨0, false, 0⟩
                SERGENSIO_BREAK_ON .brk .null false).sys).2
          0 .brk .null true).sys).2
      = [some (0, SERGENSIO_BREAK_ON)]
    ∧ SERGENSIO_BREAK_ON ≠ SERGENSIO_BREAK_OFF := by
  refine ⟨rfl, rfl, by decide⟩

/-- C7 counterexample: the claim says a submit on a non-write-only closed
endpoint "allocates nothing (no queue entry is allocated)", but when a
completion is supplied the source calls `zalloc` for the queue entry before
it checks `open` (line 172-181 vs 184), so one entry is allocated (and then
freed) while the call still fails busy. -/
theorem submit_closed_allocates_entry :
    (termios_set_get ⟨false, false, false, []⟩ ⟨0, false, 0⟩ 1 .brk .null true).allocs
      = 1
    ∧ (termios_set_get ⟨false, false, false, []⟩ ⟨0, false, 0⟩ 1 .brk .null true).ret
      = some EBUSY := by
  refine ⟨rfl, rfl⟩

/-- C2: a poller tick that passes the re-entrancy guard and whose `TIOCMGET`
succeeds with value `v` computes `cur` (bit 7 = CD, 6 = RI, 5 = DSR,
4 = CTS), `edges = (cur ^^^ last_modemstate) >>> 4` and
`new_state = (cur ||| edges) &&& modemstate_mask`, stores `new_state` as the
new `last_modemstate`, and dispatches a `SER_MODEMSTATE` event carrying
`new_state` if and only if this is the first report since open
(`sent_first_modemstate = false`) or `new_state` has a nonzero bottom
nibble. -/
theorem termios_timeout_tick_spec (s : PollState) (v cur edges new_state : Nat)
    (hg : s.handling_modemstate = false)
    (hcur : cur = modemstate_of_tiocm v)
    (hedges : edges = (cur ^^^ s.last_modemstate) >>> 4)
    (hns : new_state = (cur ||| edges) &&& s.modemstate_mask) :
    (termios_timeout s (some v)).state.last_modemstate = new_state
    ∧ (termios_timeout s (some v)).dispatched
      = (if s.sent_first_modemstate = false ∨ new_state &&& 0xf ≠ 0
         then some new_state else none) := by
  subst hcur hedges hns
  simp only [termios_timeout, hg, Bool.false_eq_true, if_false, land_land_self]
  refine ⟨trivial, ?_⟩
  by_cases hs : s.sent_first_modemstate <;>
    by_cases hp : ((modemstate_of_tiocm v |||
        (modemstate_of_tiocm v ^^^ s.last_modemstate) >>> 4) &&&
        s.modemstate_mask) &&& 0xf = 0 <;>
    simp [hs, hp]

/-- Witness for `termios_timeout_tick_spec`: fresh state (mask 255, first
report not yet sent), sample with only CTS high. -/
theorem termios_timeout_tick_spec_witness :
    (termios_timeout
        { last_modemstate := 0, modemstate_mask := 255,
          sent_first_modemstate := false, handling_modemstate := false }
        (some 0x20)).state.last_modemstate = 0x11
    ∧ (termios_timeout
        { last_modemstate := 0, modemstate_mask := 255,
          sent_first_modemstate := false, handling_modemstate := false }
        (some 0x20)).dispatched = some 0x11 := by
  have h := termios_timeout_tick_spec
    { last_modemstate := 0, modemstate_mask := 255,
      sent_first_modemstate := false, handling_modemstate := false }
    0x20 0x10 1 0x11 rfl (by decide) (by decide) (by decide)
  refine ⟨h.1, ?_⟩
  rw [h.2]
  simp

/-- C4: a drain poll (`GENSIO_LL_CLOSE_STATE_DONE`) whose `TIOCOUTQ` ioctl
succeeds completes the close (returns 0) exactly when the operation queue is
empty, the timer has reported stopped, and the OS output queue is empty or
`close_timeouts_left` reaches zero by this poll's decrement; `uucp_rm_lock`
runs exactly on completion and never on an `EAGAIN` poll, every `EAGAIN`
poll re-arms a 10 ms timeout, and the `GENSIO_LL_CLOSE_STATE_START`
transition initializes `close_timeouts_left` to 200. -/
theorem sterm_check_close_drain_spec (s : DrainState) (n : Nat) (b : Bool)
    (h1 : 0 < s.close_timeouts_left) (h2 : s.close_timeouts_left < 2 ^ 32) :
    ((sterm_check_close_drain s (some n)).err = 0
      ↔ (s.termio_q_empty = true ∧ s.timer_stopped = true
          ∧ (n = 0 ∨ s.close_timeouts_left = 1)))
    ∧ ((sterm_check_close_drain s (some n)).uucp_removed = true
      ↔ (sterm_check_close_drain s (some n)).err = 0)
    ∧ ((sterm_check_close_drain s (some n)).err ≠ 0
      → (sterm_check_close_drain s (some n)).err = EAGAIN
        ∧ (sterm_check_close_drain s (some n)).next_timeout_usec = some 10000)
    ∧ (sterm_close_start s b).close_timeouts_left = 200 := by
  by_cases hq : s.termio_q_empty <;> by_cases ht : s.timer_stopped <;>
    by_cases hn : n = 0 <;>
    simp only [sterm_check_close_drain, sterm_close_start, hq, hn,
               ht, EAGAIN, if_true, if_false, Bool.true_eq_false,
               Bool.false_eq_true, ite_true, ite_false, reduceIte] <;>
    by_cases hc : s.close_timeouts_left = 1 <;>
    simp_all [apply_ite DrainOut.err, apply_ite DrainOut.uucp_removed,
              apply_ite DrainOut.next_timeout_usec]
  all_goals omega

/-- Witness for `sterm_check_close_drain_spec`: queue empty, timer stopped,
output queue still holds 5 bytes, one retry left — the poll completes and
releases the UUCP lock. -/
theorem sterm_check_close_drain_spec_witness :
    (sterm_check_close_drain ⟨true, true, true, 1⟩ (some 5)).err = 0
    ∧ (sterm_check_close_drain ⟨true, true, true, 1⟩ (some 5)).uucp_removed = true := by
  have h := sterm_check_close_drain_spec ⟨true, true, true, 1⟩ 5 false
    (by decide) (by decide)
  have he : (sterm_check_close_drain ⟨true, true, true, 1⟩ (some 5)).err = 0 :=
    h.1.mpr ⟨rfl, rfl, Or.inr rfl⟩
  exact ⟨he, h.2.1.mpr he⟩

/-- Once `handling_modemstate` is stuck true, every further poller event is
inert: no dispatch, no tick-driven reschedule, and the flag stays true. -/
theorem runOps_handling_absorb (ops : List SOp) (s : PollState)
    (hh : s.handling_modemstate = true) :
    (runOps s ops).dispatches = [] ∧ (runOps s ops).reschedCount = 0
    ∧ (runOps s ops).state.handling_modemstate = true := by
  induction ops generalizing s with
  | nil => exact ⟨rfl, rfl, hh⟩
  | cons op rest ih =>
    cases op with
    | tick v =>
      simpa [runOps, stepOp, termios_timeout, hh] using ih s hh
    | tickFail =>
      simpa [runOps, stepOp, termios_timeout, hh] using ih s hh
    | sub m =>
      simpa [runOps, stepOp, sterm_modemstate, hh] using
        ih { s with modemstate_mask := m } hh

/-- After the first modem-state report has been sent, no later dispatch is
forced. -/
theorem runOps_sent_no_forced (ops : List SOp) (s : PollState)
    (hs : s.sent_first_modemstate = true) :
    forcedCount (runOps s ops) = 0 := by
  induction ops generalizing s with
  | nil => rfl
  | cons op rest ih =>
    cases op with
    | tick v =>
      by_cases hh : s.handling_modemstate
      · simpa [runOps, stepOp, termios_timeout, hh, forcedCount] using ih s hs
      · by_cases hp :
          (((modemstate_of_tiocm v |||
              (modemstate_of_tiocm v ^^^ s.last_modemstate) >>> 4) &&&
            s.modemstate_mask) &&& 0xf) = 0 <;>
          simpa [runOps, stepOp, termios_timeout, hh, hs, hp, forcedCount,
                 land_land_self] using ih _ rfl
    | tickFail =>
      by_cases hh : s.handling_modemstate
      · simpa [runOps, stepOp, termios_timeout, hh, forcedCount] using ih s hs
      · simpa [runOps, stepOp, termios_timeout, hh, forcedCount] using
          ih { s with handling_modemstate := true } hs
    | sub m =>
      simpa [runOps, stepOp, sterm_modemstate, forcedCount] using
        ih { s with modemstate_mask := m } hs

/-- In a run with no failing tick, starting with the guard clear and the
first report not yet sent, exactly one forced dispatch happens when the run
contains a tick, and none otherwise. -/
theorem runOps_forced_iff_tick (ops : List SOp) (s : PollState)
    (hh : s.handling_modemstate = false) (hs : s.sent_first_modemstate = false)
    (hnf : noFail ops = true) :
    forcedCount (runOps s ops) = if hasTick ops then 1 else 0 := by
  induction ops generalizing s with
  | nil => rfl
  | cons op rest ih =>
    cases op with
    | tick v =>
      have h0 : forcedCount (runOps (termios_timeout s (some v)).state rest) = 0 := by
        apply runOps_sent_no_forced
        simp [termios_timeout, hh]
      simp only [runOps, stepOp] at h0 ⊢
      simp [termios_timeout, hh, hs, forcedCount, hasTick] at h0 ⊢
      simpa [forcedCount] using h0
    | tickFail => simp [noFail] at hnf
    | sub m =>
      have hnf' : noFail rest = true := by simpa [noFail] using hnf
      simpa [runOps, stepOp, sterm_modemstate, forcedCount, hasTick] using
        ih { s with modemstate_mask := m } hh hs hnf'

/-- `noFail` distributes over append. -/
theorem noFail_append (a b : List SOp) :
    noFail (a ++ b) = (noFail a && noFail b) := by
  induction a with
  | nil => simp [noFail]
  | cons op rest ih => cases op <;> simp [noFail, ih]

/-- A pure tick list never fails. -/
theorem noFail_map_tick (l : List Nat) : noFail (l.map SOp.tick) = true := by
  induction l with
  | nil => rfl
  | cons v rest ih => simpa [noFail] using ih

/-- `hasTick` distributes over append. -/
theorem hasTick_append (a b : List SOp) :
    hasTick (a ++ b) = (hasTick a || hasTick b) := by
  induction a with
  | nil => simp [hasTick]
  | cons op rest ih => cases op <;> simp [hasTick, ih]

/-- A nonempty tick list contains a tick. -/
theorem hasTick_map_tick (l : List Nat) (h : l ≠ []) :
    hasTick (l.map SOp.tick) = true := by
  cases l with
  | nil => exact absurd rfl h
  | cons v rest => rfl

/-- C3 (amended): with `modemstate_mask = 0x10` and the first forced report
already sent, no `SER_MODEMSTATE` event is dispatched on any sequence of
poller ticks — neither for CTS edges nor for CD-only edges — because the
mask is applied to the edge bits as well and `0x10` has an empty bottom
nibble (a mask of `0x11` would be needed to report CTS edges). -/
theorem mask_cts_level_only_never_dispatches (s : PollState) (samples : List Nat)
    (hm : s.modemstate_mask = 0x10) (hs : s.sent_first_modemstate = true) :
    (runOps s (samples.map SOp.tick)).dispatches = [] := by
  induction samples generalizing s with
  | nil => rfl
  | cons v rest ih =>
    by_cases hh : s.handling_modemstate
    · simpa [runOps, stepOp, termios_timeout, hh] using ih s hm hs
    · simpa [runOps, stepOp, termios_timeout, hh, hs, hm, land_land_self,
             land_sixteen_fifteen] using
        ih { last_modemstate :=
               (modemstate_of_tiocm v |||
                 (modemstate_of_tiocm v ^^^ s.last_modemstate) >>> 4) &&& 0x10,
             modemstate_mask := 0x10,
             sent_first_modemstate := true,
             handling_modemstate := false } rfl rfl

/-- Witness for `mask_cts_level_only_never_dispatches`: CTS low in the
stored state, then sampled high and low again — two CTS edges, no event. -/
theorem mask_cts_level_only_never_dispatches_witness :
    (runOps
        { last_modemstate := 0, modemstate_mask := 0x10,
          sent_first_modemstate := true, handling_modemstate := false }
        ([0x20, 0].map SOp.tick)).dispatches = [] :=
  mask_cts_level_only_never_dispatches
    { last_modemstate := 0, modemstate_mask := 0x10,
      sent_first_modemstate := true, handling_modemstate := false }
    [0x20, 0] rfl rfl

/-- C8: starting from a fresh open (`sent_first_modemstate = false`, guard
clear), a run of ticks, then `subscribe(0)`, then `subscribe(M)` with
`M ≠ 0`, then more ticks — with at least one tick somewhere — dispatches
exactly one forced initial modem-state event, no matter how many ticks ran
before the `subscribe(0)`. -/
theorem modemstate_resub_one_forced (s : PollState) (ks ns : List Nat) (M : Nat)
    (hh : s.handling_modemstate = false) (hs : s.sent_first_modemstate = false)
    (_hM : M ≠ 0) (hne : ks ≠ [] ∨ ns ≠ []) :
    forcedCount
      (runOps s (ks.map SOp.tick ++ SOp.sub 0 :: SOp.sub M :: ns.map SOp.tick))
      = 1 := by
  rw [runOps_forced_iff_tick]
  · have hht : hasTick (ks.map SOp.tick ++ SOp.sub 0 :: SOp.sub M :: ns.map SOp.tick)
        = true := by
      rcases hne with h | h
      · simp [hasTick_append, hasTick_map_tick ks h]
      · simp [hasTick_append, hasTick, hasTick_map_tick ns h]
    rw [hht]
    rfl
  · exact hh
  · exact hs
  · simp [noFail_append, noFail_map_tick, noFail]

/-- Witness for `modemstate_resub_one_forced`: one tick before the
resubscribe, one after. -/
theorem modemstate_resub_one_forced_witness :
    forcedCount
      (runOps
        { last_modemstate := 0, modemstate_mask := 255,
          sent_first_modemstate := false, handling_modemstate := false }
        ([0x20].map SOp.tick ++ SOp.sub 0 :: SOp.sub 255 :: [0].map SOp.tick))
      = 1 :=
  modemstate_resub_one_forced
    { last_modemstate := 0, modemstate_mask := 255,
      sent_first_modemstate := false, handling_modemstate := false }
    [0x20] [0] 255 rfl rfl (by decide) (Or.inl (by decide))

/-- C9: when the `TIOCMGET` ioctl fails during a tick, the tick returns with
`handling_modemstate` still true, and every later poller event — further
ticks, failing ticks, or subscribes that restart the timer — dispatches no
modem-state event, never reschedules the timer from a tick, and leaves the
guard stuck true. -/
theorem tiocmget_failure_wedges_poller (s : PollState) (ops : List SOp)
    (hh : s.handling_modemstate = false) :
    (runOps s (SOp.tickFail :: ops)).dispatches = []
    ∧ (runOps s (SOp.tickFail :: ops)).reschedCount = 0
    ∧ (runOps s (SOp.tickFail :: ops)).state.handling_modemstate = true := by
  have habs := runOps_handling_absorb ops { s with handling_modemstate := true } rfl
  simpa [runOps, stepOp, termios_timeout, hh] using habs

/-- Witness for `tiocmget_failure_wedges_poller`: a failing tick, then a
good tick, a resubscribe with mask 255, and another good tick — still no
event and no tick reschedule. -/
theorem tiocmget_failure_wedges_poller_witness :
    (runOps ⟨0, 255, false, false⟩
      (SOp.tickFail :: [SOp.tick 0x20, SOp.sub 255, SOp.tick 0])).dispatches = []
    ∧ (runOps ⟨0, 255, false, false⟩
      (SOp.tickFail :: [SOp.tick 0x20, SOp.sub 255, SOp.tick 0])).reschedCount = 0
    ∧ (runOps ⟨0, 255, false, false⟩
      (SOp.tickFail :: [SOp.tick 0x20, SOp.sub 255, SOp.tick 0])).state.handling_modemstate
      = true :=
  tiocmget_failure_wedges_poller ⟨0, 255, false, false⟩
    [SOp.tick 0x20, SOp.sub 255, SOp.tick 0] rfl

/-- C5 (amended): on an open, non-write-only endpoint with an empty queue,
`submit(BREAK, ON)` succeeds, latches `break_set = true` and a queued BREAK
get completes with ON; `submit(BREAK, OFF)` symmetrically latches and reads
back OFF (so `break_set` always reflects the last successful BREAK set);
and `submit(BREAK, v)` for any nonzero `v` other than ON and OFF fails
invalid-argument leaving the endpoint state — in particular `break_set` —
unchanged (`v = 0` is a queued get and is not rejected). -/
theorem sbreak_latch_spec (ep : EpState) (sys : SysState)
    (hw : ep.write_only = false) (ho : ep.open_flag = true)
    (hq : ep.termio_q = []) :
    ((termios_set_get ep sys SERGENSIO_BREAK_ON .brk .null true).ret = some 0
      ∧ (termios_set_get ep sys SERGENSIO_BREAK_ON .brk .null true).ep.break_set
        = true
      ∧ (termios_process
          (termios_set_get ep sys SERGENSIO_BREAK_ON .brk .null true).ep
          (termios_set_get ep sys SERGENSIO_BREAK_ON .brk .null true).sys).2
        = [some (0, SERGENSIO_BREAK_ON)])
    ∧ ((termios_set_get ep sys SERGENSIO_BREAK_OFF .brk .null true).ret = some 0
      ∧ (termios_set_get ep sys SERGENSIO_BREAK_OFF .brk .null true).ep.break_set
        = false
      ∧ (termios_process
          (termios_set_get ep sys SERGENSIO_BREAK_OFF .brk .null true).ep
          (termios_set_get ep sys SERGENSIO_BREAK_OFF .brk .null true).sys).2
        = [some (0, SERGENSIO_BREAK_OFF)])
    ∧ (∀ v, v ≠ 0 → v ≠ SERGENSIO_BREAK_ON → v ≠ SERGENSIO_BREAK_OFF →
        (termios_set_get ep sys v .brk .null true).ret = some EINVAL
        ∧ (termios_set_get ep sys v .brk .null true).ep = ep) := by
  refine ⟨?_, ?_, ?_⟩
  · simp [termios_set_get, termios_process, termios_process_entry, hw, ho, hq,
          SERGENSIO_BREAK_ON, SERGENSIO_BREAK_OFF]
  · simp [termios_set_get, termios_process, termios_process_entry, hw, ho, hq,
          SERGENSIO_BREAK_ON, SERGENSIO_BREAK_OFF]
  · intro v h0 h1 h2
    simp [termios_set_get, hw, ho, h0, h1, h2, EINVAL]

/-- Witness for `sbreak_latch_spec`: fresh open endpoint; a BREAK ON set
succeeds and `submit(BREAK, 42)` is rejected. -/
theorem sbreak_latch_spec_witness :
    (termios_set_get ⟨false, true, false, []⟩ ⟨0, false, 0⟩
        SERGENSIO_BREAK_ON .brk .null true).ret = some 0
    ∧ (termios_set_get ⟨false, true, false, []⟩ ⟨0, false, 0⟩
        42 .brk .null true).ret = some EINVAL := by
  have h := sbreak_latch_spec ⟨false, true, false, []⟩ ⟨0, false, 0⟩ rfl rfl rfl
  exact ⟨h.1.1, (h.2.2 42 (by decide) (by decide) (by decide)).1⟩

/-- C7 (amended): any submit on a non-write-only endpoint whose `open` flag
is false returns busy, performs no OS action and leaves the endpoint and
tty state untouched, and leaves nothing allocated: when a completion is
supplied the source does allocate one queue entry (before the `open`
check), but frees it before returning, and nothing is enqueued. -/
theorem submit_closed_busy_spec (ep : EpState) (sys : SysState) (val : Nat)
    (op : TermioOp) (gs : Accessor) (hasDone : Bool)
    (hw : ep.write_only = false) (ho : ep.open_flag = false) :
    (termios_set_get ep sys val op gs hasDone).ret = some EBUSY
    ∧ (termios_set_get ep sys val op gs hasDone).ep = ep
    ∧ (termios_set_get ep sys val op gs hasDone).sys = sys
    ∧ (termios_set_get ep sys val op gs hasDone).enqueued = false
    ∧ (termios_set_get ep sys val op gs hasDone).frees
      = (termios_set_get ep sys val op gs hasDone).allocs := by
  simp [termios_set_get, hw, ho]

/-- Witness for `submit_closed_busy_spec`: closed endpoint, BREAK set with a
completion supplied. -/
theorem submit_closed_busy_spec_witness :
    (termios_set_get ⟨false, false, false, []⟩ ⟨0, false, 0⟩ 1 .brk .null true).ret
      = some EBUSY
    ∧ (termios_set_get ⟨false, false, false, []⟩ ⟨0, false, 0⟩ 1 .brk .null true).frees
      = (termios_set_get ⟨false, false, false, []⟩ ⟨0, false, 0⟩ 1 .brk .null true).allocs := by
  have h := submit_closed_busy_spec ⟨false, false, false, []⟩ ⟨0, false, 0⟩
    1 .brk .null true rfl rfl
  exact ⟨h.1, h.2.2.2.2⟩

/-- C10: on an open, non-write-only endpoint, a synchronous MODEM_CTL set
(`val ≠ 0`) with no completion reaches the undefined branch of the
embedding — the source reads the accessor through `qe->getset` and `qe` is
NULL when `done` is NULL — whereas the TERMIO set path calls the `getset`
argument directly and is defined without a completion, and the MODEM_CTL
set path is defined when a completion is supplied. -/
theorem mctl_set_requires_completion (ep : EpState) (sys : SysState) (val : Nat)
    (gs : Accessor)
    (hw : ep.write_only = false) (ho : ep.open_flag = true) (hv : val ≠ 0) :
    (termios_set_get ep sys val .mctl gs false).ret = none
    ∧ (∀ f, (termios_set_get ep sys val .termio (.termioFn f) false).ret ≠ none)
    ∧ (∀ f, (termios_set_get ep sys val .mctl (.mctlFn f) true).ret ≠ none) := by
  refine ⟨by simp [termios_set_get, hw, ho, hv], ?_, ?_⟩
  · intro f
    cases hf : f sys.termio val with
    | error e =>
      by_cases he : e = 0 <;> simp [termios_set_get, hw, ho, hv, hf, he]
    | ok p =>
      obtain ⟨t, v'⟩ := p
      simp [termios_set_get, hw, ho, hv, hf]
  · intro f
    cases hf : f sys.mctl val with
    | error e =>
      by_cases he : e = 0 <;> simp [termios_set_get, hw, ho, hv, hf, he]
    | ok p =>
      obtain ⟨m, v'⟩ := p
      simp [termios_set_get, hw, ho, hv, hf]

/-- Witness for `mctl_set_requires_completion`: a DTR ON set without a
completion is undefined; the same set through the DTR accessor with a
completion, and a termios-path set without one, are defined. -/
theorem mctl_set_requires_completion_witness :
    (termios_set_get ⟨false, true, false, []⟩ ⟨0, false, 0⟩
        SERGENSIO_DTR_ON .mctl (.mctlFn termios_get_set_dtr) false).ret = none
    ∧ (termios_set_get ⟨false, true, false, []⟩ ⟨0, false, 0⟩
        SERGENSIO_DTR_ON .mctl (.mctlFn termios_get_set_dtr) true).ret ≠ none := by
  have h := mctl_set_requires_completion ⟨false, true, false, []⟩ ⟨0, false, 0⟩
    SERGENSIO_DTR_ON (.mctlFn termios_get_set_dtr) rfl rfl (by decide)
  exact ⟨h.1, h.2.2 termios_get_set_dtr⟩

end Ser2net
